import Mathlib

/-!
Shallow embedding of `bin/junit_to_html.py` (a JUnit-XML → HTML report
converter) and proofs about it.

Modelling conventions:
- Python strings are Lean `String` (a list of unicode code points); Python
  truthiness checks `if not s` on strings are modelled as `s = ""`.
- Python `int`/`float` attribute parsing is modelled by `pyInt?` / `pyFloat?`
  returning `Option`; machine floats are modelled as exact rationals `ℚ`
  (the special float names `inf`/`nan` are outside the rational model and
  outside every claim considered here).
- `xml.etree.ElementTree` documents are modelled by the tree type `XElem`;
  `Element.find` / `findall` / `get` / `.text` are modelled by `findChild`,
  `findall`, `getAttr` and the `text` field, exactly as ET behaves on
  direct children.
- File I/O is modelled by passing a lookup `fs : String → Option FileContent`
  to `convert`; the single output write of `generate_html` is modelled by the
  `(path, content)` pair that `convert` returns on success, so a failing
  conversion returns no write at all.
- The wall clock (`datetime.now()`) is modelled by a `now : String` parameter.
-/

/-! ## Python string helpers -/

/-- Whitespace as recognised by Python `str.strip` / regex `\s` (the ASCII
whitespace characters; exotic unicode whitespace is not used by any claim). -/
def isPySpace (c : Char) : Bool :=
  c == ' ' || c == '\t' || c == '\n' || c == '\r' || c == '\x0b' || c == '\x0c'

/-- Python `str.strip()` on a list of characters. -/
def pyStripList (l : List Char) : List Char :=
  ((l.dropWhile isPySpace).reverse.dropWhile isPySpace).reverse

/-- Numeric value of a decimal digit character. -/
def digitVal (c : Char) : Nat := c.toNat - '0'.toNat

/-- Continuation of `parseDigitsU`: digits with single underscores allowed
between two digits (Python numeric-literal rule). -/
def goDigits : Nat → List Char → Option Nat
  | acc, [] => some acc
  | _acc, ['_'] => none
  | acc, '_' :: d :: t => if d.isDigit then goDigits (acc * 10 + digitVal d) t else none
  | acc, c :: t => if c.isDigit then goDigits (acc * 10 + digitVal c) t else none

/-- Parse a full run of decimal digits (with Python's underscore rule); the
whole list must be consumed. Used for `int(...)`. -/
def parseDigitsU (l : List Char) : Option Nat :=
  match l with
  | [] => none
  | c :: t => if c.isDigit then goDigits (digitVal c) t else none

/-- Python `int(s)` on a string: optional surrounding whitespace, optional
sign, then base-10 digits. `none` models the `ValueError` raised on any
other input. -/
def pyInt? (s : String) : Option ℤ :=
  match pyStripList s.data with
  | '+' :: t => (parseDigitsU t).map Int.ofNat
  | '-' :: t => (parseDigitsU t).map (fun n => -(n : ℤ))
  | t => (parseDigitsU t).map Int.ofNat

/-- Grab a leading digit group (Python underscore rule): returns the value,
the number of digits, and the unconsumed rest; `none` when there is no
leading digit. -/
def grabDigits : List Char → Option (Nat × Nat × List Char)
  | [] => none
  | c :: t =>
    if c.isDigit then some (grabGo (digitVal c) 1 t) else none
where
  grabGo (acc : Nat) (cnt : Nat) : List Char → Nat × Nat × List Char
    | [] => (acc, cnt, [])
    | '_' :: d :: t =>
      if d.isDigit then grabGo (acc * 10 + digitVal d) (cnt + 1) t
      else (acc, cnt, '_' :: d :: t)
    | c :: t =>
      if c.isDigit then grabGo (acc * 10 + digitVal c) (cnt + 1) t
      else (acc, cnt, c :: t)

/-- Optional exponent part of a Python float literal: either the list is
empty (no exponent) or it is `e`/`E`, an optional sign and a digit group
consuming everything. Returns the signed exponent. -/
def parseExp : List Char → Option ℤ
  | [] => some 0
  | e :: t =>
    if e == 'e' || e == 'E' then
      match t with
      | '+' :: t' => expDigits t' false
      | '-' :: t' => expDigits t' true
      | t' => expDigits t' false
    else none
where
  expDigits (l : List Char) (neg : Bool) : Option ℤ :=
    match grabDigits l with
    | some (v, _, []) => some (if neg then -(v : ℤ) else (v : ℤ))
    | _ => none

/-- Mantissa and exponent of a Python float literal (after sign removal):
`digits [. [digits]] [exp]` or `. digits [exp]`. -/
def parseMantissa (l : List Char) : Option ℚ :=
  match grabDigits l with
  | some (ip, _, r1) =>
    match r1 with
    | '.' :: r2 =>
      match grabDigits r2 with
      | some (fp, fc, r3) =>
        (parseExp r3).map (fun e => ((ip : ℚ) + (fp : ℚ) / (10 : ℚ) ^ fc) * (10 : ℚ) ^ e)
      | none => (parseExp r2).map (fun e => (ip : ℚ) * (10 : ℚ) ^ e)
    | _ => (parseExp r1).map (fun e => (ip : ℚ) * (10 : ℚ) ^ e)
  | none =>
    match l with
    | '.' :: r2 =>
      match grabDigits r2 with
      | some (fp, fc, r3) =>
        (parseExp r3).map (fun e => ((fp : ℚ) / (10 : ℚ) ^ fc) * (10 : ℚ) ^ e)
      | none => none
    | _ => none

/-- Python `float(s)` on a string, in the exact-rational model: optional
surrounding whitespace, optional sign, decimal mantissa, optional exponent.
`none` models the `ValueError` on any other input. -/
def pyFloat? (s : String) : Option ℚ :=
  match pyStripList s.data with
  | '+' :: t => parseMantissa t
  | '-' :: t => (parseMantissa t).map Neg.neg
  | t => parseMantissa t

/-! ## ElementTree model -/

/-- An XML element as seen through `xml.etree.ElementTree`: tag, attribute
list (unique keys, document order), the text before the first child
(`Element.text`, `none` when absent), and the direct children in order. -/
structure XElem where
  tag : String
  attrs : List (String × String)
  text : Option String
  children : List XElem

/-- Model of `Element.find(tag)`: first direct child with the given tag. -/
def findChild (e : XElem) (t : String) : Option XElem :=
  e.children.find? (fun c => c.tag == t)

/-- Model of `Element.findall(tag)`: all direct children with the given tag, in order. -/
def findall (e : XElem) (t : String) : List XElem :=
  e.children.filter (fun c => c.tag == t)

/-- Model of `Element.get(key)`: the attribute value, or `none` when absent. -/
def getAttr (e : XElem) (k : String) : Option String :=
  (e.attrs.find? (fun kv => kv.1 == k)).map (fun kv => kv.2)

/-! ## Parser (`parse_junit_xml`, source lines 448–510) -/

/-- Failure conditions of `parse_junit_xml`; in the source they are all
raised as `ValueError` and surface as the spec's `MalformedDocument`. -/
inductive ParseError where
  | noSuite
  | badNumber (value : String)
deriving Repr, DecidableEq

/-- One parsed test case, mirroring the `case_data` dict of the source
(lines 476–485). -/
structure CaseData where
  name : String
  classname : String
  time : ℚ
  status : String
  system_out : String
  skipped : String
  error : String
  failure : String
deriving Repr, DecidableEq

/-- The parsed suite, mirroring the `suite_data` dict of the source
(lines 460–472). -/
structure SuiteData where
  name : String
  tests : ℤ
  disabled : ℤ
  errors : ℤ
  failures : ℤ
  skipped : ℤ
  time : ℚ
  test_cases : List CaseData
  passed : ℤ
deriving Repr, DecidableEq

/-- Model of `int(elem.get(attr, 0))`: absence defaults to `0`, a present value must
parse as a Python int or the conversion raises (source lines 462–466). -/
def parseIntAttr (o : Option String) : Except ParseError ℤ :=
  match o with
  | none => .ok 0
  | some s =>
    match pyInt? s with
    | some n => .ok n
    | none => .error (.badNumber s)

/-- Model of `float(elem.get('time', 0))`: absence defaults to `0`, a present value
must parse as a Python float or the conversion raises (lines 467, 479). -/
def parseFloatAttr (o : Option String) : Except ParseError ℚ :=
  match o with
  | none => .ok 0
  | some s =>
    match pyFloat? s with
    | some q => .ok q
    | none => .error (.badNumber s)

/-- Model of `marker.text or fallback` (lines 490, 493, 496): the marker's inner text,
or the fallback when the text is missing or empty. -/
def textOrDefault (el : XElem) (fallback : String) : String :=
  match el.text with
  | none => fallback
  | some t => if t = "" then fallback else t

/-- System output extraction (lines 499–501): present, non-empty text,
stripped. -/
def systemOutOf (testcase : XElem) : String :=
  match findChild testcase "system-out" with
  | some el =>
    match el.text with
    | some t => if t = "" then "" else String.mk (pyStripList t.data)
    | none => ""
  | none => ""

/-- Parse one `testcase` element (the loop body of lines 475–503): defaults
for `name`/`classname`/`time`, then the marker check in the fixed order
skipped, error, failure, each setting the status and its message field. -/
def parseCase (testcase : XElem) : Except ParseError CaseData :=
  match parseFloatAttr (getAttr testcase "time") with
  | .error e => .error e
  | .ok time =>
    let base : CaseData :=
      { name := (getAttr testcase "name").getD "Unknown"
        classname := (getAttr testcase "classname").getD ""
        time := time
        status := "passed"
        system_out := systemOutOf testcase
        skipped := ""
        error := ""
        failure := "" }
    .ok (match findChild testcase "skipped" with
      | some el => { base with status := "skipped", skipped := textOrDefault el "Skipped" }
      | none =>
        match findChild testcase "error" with
        | some el => { base with status := "error", error := textOrDefault el "Error occurred" }
        | none =>
          match findChild testcase "failure" with
          | some el => { base with status := "failed", failure := textOrDefault el "Test failed" }
          | none => base)

/-- The `for testcase in testsuite.findall('testcase')` loop: each case is
parsed and appended in order; the first failure aborts the whole parse. -/
def mapExcept {ε α β : Type} (f : α → Except ε β) : List α → Except ε (List β)
  | [] => .ok []
  | a :: t =>
    match f a with
    | .error e => .error e
    | .ok b =>
      match mapExcept f t with
      | .error e => .error e
      | .ok bs => .ok (b :: bs)

/-- Model of `parse_junit_xml` (lines 448–510) on an already-parsed XML root: locate
the `testsuite` direct child, read the suite attributes (absence defaults,
malformed value fails), derive `passed`, and parse the cases in order. -/
def parse_junit_xml (root : XElem) : Except ParseError SuiteData :=
  match findChild root "testsuite" with
  | none => .error .noSuite
  | some testsuite =>
    match parseIntAttr (getAttr testsuite "tests") with
    | .error e => .error e
    | .ok tests =>
      match parseIntAttr (getAttr testsuite "disabled") with
      | .error e => .error e
      | .ok disabled =>
        match parseIntAttr (getAttr testsuite "errors") with
        | .error e => .error e
        | .ok errors =>
          match parseIntAttr (getAttr testsuite "failures") with
          | .error e => .error e
          | .ok failures =>
            match parseIntAttr (getAttr testsuite "skipped") with
            | .error e => .error e
            | .ok skipped =>
              match parseFloatAttr (getAttr testsuite "time") with
              | .error e => .error e
              | .ok time =>
                match mapExcept parseCase (findall testsuite "testcase") with
                | .error e => .error e
                | .ok test_cases =>
                  .ok { name := (getAttr testsuite "name").getD "Unknown"
                        tests := tests
                        disabled := disabled
                        errors := errors
                        failures := failures
                        skipped := skipped
                        time := time
                        test_cases := test_cases
                        passed := tests - errors - failures - skipped }

/-! ## Time formatter (`format_time`, lines 512–521) -/

/-- Round to the nearest integer, ties to even — the rounding used by
Python's fixed-point string formatting. -/
def halfEvenRound (q : ℚ) : ℤ :=
  let f := Rat.floor q
  let r := q - (f : ℚ)
  if r < 1 / 2 then f
  else if 1 / 2 < r then f + 1
  else if f % 2 = 0 then f else f + 1

/-- Zero-pad a digit string on the left to `d` characters. -/
def padZeros (d : Nat) (s : String) : String :=
  String.mk (List.replicate (d - s.length) '0') ++ s

/-- Python `f"{q:.df}"` in the exact-rational model: fixed-point rendering
with `d` digits after the point, round-half-even. -/
def formatFixed (q : ℚ) (d : Nat) : String :=
  let n := halfEvenRound (q * (10 : ℚ) ^ d)
  let sign := if n < 0 then "-" else ""
  let m := n.natAbs
  sign ++ toString (m / 10 ^ d) ++ "." ++ padZeros d (toString (m % 10 ^ d))

/-- Model of `format_time` (lines 512–521): milliseconds below one second, seconds
below one minute, else whole minutes plus remaining seconds. -/
def format_time (seconds : ℚ) : String :=
  if seconds < 1 then formatFixed (seconds * 1000) 1 ++ " ms"
  else if seconds < 60 then formatFixed seconds 2 ++ " s"
  else
    let minutes : ℤ := Rat.floor (seconds / 60)
    let remaining_seconds : ℚ := seconds - 60 * (minutes : ℚ)
    toString minutes ++ "m " ++ formatFixed remaining_seconds 1 ++ "s"

/-! ## Name normalizer (`clean_test_name`, lines 523–568)

Each `re.sub(pattern, '', s)` of the source is modelled by `gsub m s` where
the matcher `m` returns the length of the (deterministic, leftmost, greedy)
match of the pattern at the head of the list, or `none`. -/

/-- Length of the leading run of characters satisfying `p`. -/
def countWhile (p : Char → Bool) (l : List Char) : Nat :=
  (l.takeWhile p).length

/-- Length of regex `.*`: everything up to (excluding) the next newline. -/
def restOfLine (l : List Char) : Nat :=
  countWhile (fun c => !(c == '\n')) l

/-- Global substitution by the empty string: scan left to right, drop each
leftmost match, continue after it. The fuel starts at the list length and
dominates the number of steps, so the scan always completes. -/
def gsubFuel (m : List Char → Option Nat) : Nat → List Char → List Char
  | _, [] => []
  | 0, l => l
  | Nat.succ fuel, c :: rest =>
    match m (c :: rest) with
    | some (Nat.succ n) => gsubFuel m fuel (rest.drop n)
    | _ => c :: gsubFuel m fuel rest

/-- Model of `re.sub(pattern, '', s)` for a matcher `m` (match length at the head). -/
def gsub (m : List Char → Option Nat) (l : List Char) : List Char :=
  gsubFuel m l.length l

/-- Matcher for `\[[^\]]+\]\s*` (line 533): a bracketed tag plus trailing
whitespace. -/
def bracketM (l : List Char) : Option Nat :=
  match l with
  | '[' :: t =>
    let k := countWhile (fun c => !(c == ']')) t
    if k = 0 then none
    else if (t.drop k).isEmpty then none
    else some (1 + k + 1 + countWhile isPySpace (t.drop (k + 1)))
  | _ => none

/-- Matcher for `\s*\([^)]{50,}\)` (line 542): a parenthesized segment of at
least 50 characters, with leading whitespace. -/
def parenM (l : List Char) : Option Nat :=
  let w := countWhile isPySpace l
  match l.drop w with
  | '(' :: t =>
    let k := countWhile (fun c => !(c == ')')) t
    if 50 ≤ k ∧ ¬(t.drop k).isEmpty then some (w + 1 + k + 1) else none
  | _ => none

/-- Matcher for `\s+(that=|fail_msg=|success_msg=).*` (lines 551, 555). -/
def kwTailM (l : List Char) : Option Nat :=
  let w := countWhile isPySpace l
  if w = 0 then none
  else
    let t := l.drop w
    if "that=".data.isPrefixOf t then some (w + 5 + restOfLine (t.drop 5))
    else if "fail_msg=".data.isPrefixOf t then some (w + 9 + restOfLine (t.drop 9))
    else if "success_msg=".data.isPrefixOf t then some (w + 12 + restOfLine (t.drop 12))
    else none

/-- Matcher for `\s+port=\d+.*` (line 556). -/
def portM (l : List Char) : Option Nat :=
  let w := countWhile isPySpace l
  if w = 0 then none
  else
    let t := l.drop w
    if "port=".data.isPrefixOf t then
      let d := countWhile Char.isDigit (t.drop 5)
      if d = 0 then none else some (w + 5 + d + restOfLine (t.drop (5 + d)))
    else none

/-- Matcher for `\s+host=.*` (line 557). -/
def hostM (l : List Char) : Option Nat :=
  let w := countWhile isPySpace l
  if w = 0 then none
  else
    let t := l.drop w
    if "host=".data.isPrefixOf t then some (w + 5 + restOfLine (t.drop 5)) else none

/-- Matcher for `\s+state=.*` (line 558). -/
def stateM (l : List Char) : Option Nat :=
  let w := countWhile isPySpace l
  if w = 0 then none
  else
    let t := l.drop w
    if "state=".data.isPrefixOf t then some (w + 6 + restOfLine (t.drop 6)) else none

/-- Matcher for `\s+timeout=\d+.*` (line 559). -/
def timeoutM (l : List Char) : Option Nat :=
  let w := countWhile isPySpace l
  if w = 0 then none
  else
    let t := l.drop w
    if "timeout=".data.isPrefixOf t then
      let d := countWhile Char.isDigit (t.drop 8)
      if d = 0 then none else some (w + 8 + d + restOfLine (t.drop (8 + d)))
    else none

/-- Model of `re.sub(r'^Verify:\s*', '', s, flags=IGNORECASE)` and the `TEST_CASE:`
variant (lines 536, 539): a case-insensitive anchored prefix strip, plus
the following whitespace. The keyword is given lowercased. -/
def stripPrefixCI (kw : List Char) (l : List Char) : List Char :=
  if (l.take kw.length).map Char.toLower == kw then
    (l.drop kw.length).dropWhile isPySpace
  else l

/-- Model of `re.sub(r'\s+', ' ', s)` (line 562): collapse each whitespace run to a
single space. -/
def collapseWs : List Char → List Char
  | [] => []
  | [c] => if isPySpace c then [' '] else [c]
  | c :: d :: t =>
    if isPySpace c then
      if isPySpace d then collapseWs (d :: t) else ' ' :: collapseWs (d :: t)
    else c :: collapseWs (d :: t)

/-- The comma clause (lines 545–552): when a comma is present, keep the text
before the first comma, strip it, and remove a trailing keyword fragment. -/
def commaStep (l : List Char) : List Char :=
  if l.any (fun c => c == ',') then
    gsub kwTailM (pyStripList (l.takeWhile (fun c => !(c == ','))))
  else l

/-- The ordered rewrite pipeline of `clean_test_name` (lines 529–562), up to
but excluding the truncation and placeholder steps. -/
def cleanSteps (test_name : String) : String :=
  let c := test_name.data
  let c := gsub bracketM c
  let c := stripPrefixCI "verify:".data c
  let c := stripPrefixCI "test_case:".data c
  let c := gsub parenM c
  let c := commaStep c
  let c := gsub kwTailM c
  let c := gsub portM c
  let c := gsub hostM c
  let c := gsub stateM c
  let c := gsub timeoutM c
  String.mk (pyStripList (collapseWs c))

/-- Model of `clean_test_name` (lines 523–568): the rewrite pipeline, truncation past
60 characters to 57 plus `"..."`, and the two placeholders. -/
def clean_test_name (test_name : String) : String :=
  if test_name = "" then "Unknown Test"
  else
    let cleaned := cleanSteps test_name
    let cleaned := if cleaned.length > 60 then String.mk (cleaned.data.take 57) ++ "..." else cleaned
    if cleaned = "" then "Test Case" else cleaned

/-! ## Text escaper (`escape_html`, lines 721–729) -/

/-- One `str.replace(c, r)` step of the escaper: since every pattern is a
single character, this is a character-wise replacement. -/
def replaceCh (c : Char) (r : List Char) : List Char → List Char
  | [] => []
  | x :: xs => (if x = c then r else [x]) ++ replaceCh c r xs

/-- Model of `escape_html` (lines 721–729): empty input yields empty output, else the
five replacements in source order, ampersand first. -/
def escape_html (text : String) : String :=
  if text = "" then ""
  else
    String.mk
      (replaceCh '\'' "&#x27;".data
        (replaceCh '"' "&quot;".data
          (replaceCh '>' "&gt;".data
            (replaceCh '<' "&lt;".data
              (replaceCh '&' "&amp;".data text.data)))))

/-- The single-pass character escaping the chain amounts to: each source
character maps to its entity (or itself) exactly once. -/
def escChar (c : Char) : List Char :=
  if c = '&' then "&amp;".data
  else if c = '<' then "&lt;".data
  else if c = '>' then "&gt;".data
  else if c = '"' then "&quot;".data
  else if c = '\'' then "&#x27;".data
  else [c]

/-- Every ampersand in the list starts one of the five entity spellings
(checked via its tail), i.e. no ampersand is left unescaped. -/
def ampSafeB : List Char → Bool
  | [] => true
  | c :: t =>
    (if c = '&' then
        "amp;".data.isPrefixOf t || "lt;".data.isPrefixOf t || "gt;".data.isPrefixOf t ||
          "quot;".data.isPrefixOf t || "#x27;".data.isPrefixOf t
      else true) && ampSafeB t

/-! ## Report renderer (`generate_html`, lines 570–719) -/

/-- The fixed style/script payload of the converter (`self.css_styles`,
lines 27–446). It is a static asset: data-independent, embedded verbatim
once per document, and no claim depends on its content, so its ~420 lines
of CSS/JavaScript are abbreviated here. -/
def css_styles : String :=
  "\n        <style> static stylesheet asset, data-independent </style>\n        <script> static expand-collapse script asset, data-independent </script>\n        "

/-- One test-case block of the report (loop body, lines 637–703). -/
def caseHtml (i : Nat) (test_case : CaseData) : String :=
  let status_class := "status-" ++ test_case.status
  let status_text := test_case.status.toUpper
  let cleaned_name := clean_test_name test_case.name
  "\n            <div class=\"test-case\">\n                <div class=\"test-header\">\n                    <div class=\"test-header-left\">\n                        <button class=\"toggle-button\" aria-label=\"Toggle test details\">▶</button>\n                        <div class=\"test-name\">\n                            "
    ++ toString i ++ ". " ++ escape_html cleaned_name
    ++ "\n                        </div>\n                    </div>\n                    <div class=\"test-status " ++ status_class ++ "\">\n                        "
    ++ status_text
    ++ "\n                    </div>\n                </div>\n                \n                <div class=\"test-details\">\n                    <div class=\"test-detail-row\">\n                        <div class=\"test-detail-label\">Full Name:</div>\n                        <div class=\"test-detail-value\">"
    ++ escape_html test_case.name
    ++ "</div>\n                    </div>\n                    <div class=\"test-detail-row\">\n                        <div class=\"test-detail-label\">Duration:</div>\n                        <div class=\"test-detail-value\">"
    ++ format_time test_case.time
    ++ "</div>\n                    </div>\n                    <div class=\"test-detail-row\">\n                        <div class=\"test-detail-label\">Class:</div>\n                        <div class=\"test-detail-value\">"
    ++ escape_html test_case.classname
    ++ "</div>\n                    </div>\n"
    ++ (if test_case.status = "skipped" ∧ test_case.skipped ≠ "" then
          "\n                    <div class=\"skipped-reason\">\n                        <strong>Skip Reason:</strong> "
            ++ escape_html test_case.skipped ++ "\n                    </div>\n"
        else if test_case.status = "error" ∧ test_case.error ≠ "" then
          "\n                    <div class=\"error-message\">\n                        <strong>Error:</strong> "
            ++ escape_html test_case.error ++ "\n                    </div>\n"
        else if test_case.status = "failed" ∧ test_case.failure ≠ "" then
          "\n                    <div class=\"error-message\">\n                        <strong>Failure:</strong> "
            ++ escape_html test_case.failure ++ "\n                    </div>\n"
        else "")
    ++ (if test_case.system_out ≠ "" then
          "\n                    <div class=\"system-out\">\n                        <strong>Output:</strong>\n"
            ++ escape_html test_case.system_out ++ "\n                    </div>\n"
        else "")
    ++ "\n                </div>\n            </div>\n"

/-- Model of `generate_html` (lines 570–719) as the document text it writes: the
header (with the raw suite name in the title and the subtitle, and the
escaped source-file label), the six summary tiles, the per-case blocks, and
the footer. The two `datetime.now()` calls are modelled by `now`. -/
def generate_html (test_data : SuiteData) (now : String) (source_file : String) : String :=
  let source_section :=
    if source_file ≠ "" then
      "\n            <div class=\"source-info\">\n                <div class=\"source-label\">Source File</div>\n                <div class=\"source-path\">"
        ++ escape_html source_file ++ "</div>\n            </div>"
    else ""
  "\n<!DOCTYPE html>\n<html lang=\"en\">\n<head>\n    <meta charset=\"UTF-8\">\n    <meta name=\"viewport\" content=\"width=device-width, initial-scale=1.0\">\n    <title>Test Report - "
    ++ test_data.name
    ++ "</title>\n    " ++ css_styles
    ++ "\n</head>\n<body>\n    <div class=\"container\">\n        <div class=\"header\">\n            <h1>🧪 Test Report</h1>\n            <div class=\"subtitle\">\n                "
    ++ test_data.name ++ " • Generated on " ++ now
    ++ "\n            </div>" ++ source_section
    ++ "\n        </div>\n        \n        <div class=\"stats-grid\">\n            <div class=\"stat-card\">\n                <div class=\"stat-number tests-total\">"
    ++ toString test_data.tests
    ++ "</div>\n                <div class=\"stat-label\">Total Tests</div>\n            </div>\n            <div class=\"stat-card\">\n                <div class=\"stat-number tests-passed\">"
    ++ toString test_data.passed
    ++ "</div>\n                <div class=\"stat-label\">Passed</div>\n            </div>\n            <div class=\"stat-card\">\n                <div class=\"stat-number tests-failed\">"
    ++ toString test_data.failures
    ++ "</div>\n                <div class=\"stat-label\">Failed</div>\n            </div>\n            <div class=\"stat-card\">\n                <div class=\"stat-number tests-errors\">"
    ++ toString test_data.errors
    ++ "</div>\n                <div class=\"stat-label\">Errors</div>\n            </div>\n            <div class=\"stat-card\">\n                <div class=\"stat-number tests-skipped\">"
    ++ toString test_data.skipped
    ++ "</div>\n                <div class=\"stat-label\">Skipped</div>\n            </div>\n            <div class=\"stat-card\">\n                <div class=\"stat-number\">"
    ++ format_time test_data.time
    ++ "</div>\n                <div class=\"stat-label\">Total Time</div>\n            </div>\n        </div>\n        \n        <div class=\"test-results\">\n            <div class=\"test-results-header\">\n                <div>📋 Test Cases ("
    ++ toString test_data.test_cases.length
    ++ ")</div>\n                <div class=\"bulk-actions\">\n                    <button class=\"bulk-action-btn\" id=\"expand-all\">Expand All</button>\n                    <button class=\"bulk-action-btn\" id=\"collapse-all\">Collapse All</button>\n                </div>\n            </div>\n"
    ++ String.join ((List.enumFrom 1 test_data.test_cases).map (fun p => caseHtml p.1 p.2))
    ++ "\n        </div>\n        \n        <div class=\"footer\">\n            <p>Generated by JUnit to HTML Converter • "
    ++ now
    ++ "</p>\n        </div>\n    </div>\n</body>\n</html>\n"

/-! ## Conversion orchestrator (`convert`, lines 731–756) -/

/-- Index of the last occurrence of `c` in `l` (Python `str.rfind`, as a
`Nat` index or `none`). -/
def rfindIdx (c : Char) (l : List Char) : Option Nat :=
  (l.enum.foldl (fun acc ix => if ix.2 = c then some ix.1 else acc) none)

/-- Model of `posixpath.split`: cut after the last slash; the head keeps its
trailing slashes only when it consists solely of slashes. -/
def pathSplit (p : String) : String × String :=
  let l := p.data
  let i := match rfindIdx '/' l with | some j => j + 1 | none => 0
  let head := l.take i
  let tail := l.drop i
  let head :=
    if head ≠ [] ∧ head.any (fun c => !(c == '/')) then
      (head.reverse.dropWhile (fun c => c == '/')).reverse
    else head
  (String.mk head, String.mk tail)

/-- Model of `os.path.dirname` (POSIX). -/
def dirname (p : String) : String := (pathSplit p).1

/-- Model of `os.path.basename` (POSIX). -/
def basename (p : String) : String := (pathSplit p).2

/-- Model of `os.path.splitext` (POSIX): split at the last dot of the final
component, unless that component consists only of leading dots up to it. -/
def splitext (p : String) : String × String :=
  let l := p.data
  let sepIndex : ℤ := match rfindIdx '/' l with | some j => (j : ℤ) | none => -1
  let dotIndex : ℤ := match rfindIdx '.' l with | some j => (j : ℤ) | none => -1
  if sepIndex < dotIndex then
    let filenameIndex := (sepIndex + 1).toNat
    if ((l.drop filenameIndex).take (dotIndex.toNat - filenameIndex)).any (fun c => !(c == '.')) then
      (String.mk (l.take dotIndex.toNat), String.mk (l.drop dotIndex.toNat))
    else (p, "")
  else (p, "")

/-- Model of `posixpath.join` restricted to two components, as used by the source. -/
def pjoin (a b : String) : String :=
  if b.data.head? = some '/' then b
  else if a = "" ∨ a.data.getLast? = some '/' then a ++ b
  else a ++ "/" ++ b

/-- The output-path derivation of `convert` (lines 736–745): no output
argument → input directory, input stem, fixed `_report.html` suffix; output
argument without directory component → placed in the input's directory;
otherwise used as given. -/
def resolveOutput (input_file : String) (output_file? : Option String) : String :=
  match output_file? with
  | none => pjoin (dirname input_file) ((splitext (basename input_file)).1 ++ "_report.html")
  | some output_file =>
    if dirname output_file = "" then pjoin (dirname input_file) output_file
    else output_file

/-- What a path resolves to in the modelled filesystem: a file holding
well-formed XML with the given root, or a file that is not well-formed XML
(`ET.parse` raises `ParseError` on it). -/
inductive FileContent where
  | xml (root : XElem)
  | notXml

/-- Failure conditions of `convert`: the spec's `IOFailure` for a missing
input (the `FileNotFoundError` of line 734), and the two `ValueError`
shapes of `parse_junit_xml` (`MalformedDocument`). -/
inductive ConvError where
  | ioFailure
  | invalidXml
  | parseFailure (e : ParseError)
deriving Repr, DecidableEq

/-- Model of `convert` (lines 731–756): existence check first, then output-path
resolution, then parse, then render. The write of the output file happens
only at the very end of `generate_html`, after the whole document has been
assembled in memory, so the successful result carries the single
`(path, content)` write and a failing run carries none. -/
def convert (fs : String → Option FileContent) (now : String)
    (input_file : String) (output_file? : Option String) :
    Except ConvError (String × String) :=
  match fs input_file with
  | none => .error .ioFailure
  | some content =>
    let output_file := resolveOutput input_file output_file?
    match content with
    | .notXml => .error .invalidXml
    | .xml root =>
      match parse_junit_xml root with
      | .error e => .error (.parseFailure e)
      | .ok test_data => .ok (output_file, generate_html test_data now input_file)

/-- The file writes a conversion outcome performs: exactly one on success,
none on failure. -/
def writesOf : Except ConvError (String × String) → List (String × String)
  | .ok w => [w]
  | .error _ => []

/-! ## Auxiliary predicates and concrete documents used by the claims -/

/-- The attribute is absent, or its value parses as a Python int. -/
def intAttrOk (o : Option String) : Bool :=
  match o with
  | none => true
  | some s => (pyInt? s).isSome

/-- The attribute is absent, or its value parses as a Python float. -/
def floatAttrOk (o : Option String) : Bool :=
  match o with
  | none => true
  | some s => (pyFloat? s).isSome

/-- Every numeric attribute the parser reads from this `testsuite` element
(the five suite counters, the suite time, and each case time) is absent or
parseable. -/
def suiteNumericOk (ts : XElem) : Bool :=
  intAttrOk (getAttr ts "tests") && intAttrOk (getAttr ts "disabled") &&
    intAttrOk (getAttr ts "errors") && intAttrOk (getAttr ts "failures") &&
    intAttrOk (getAttr ts "skipped") && floatAttrOk (getAttr ts "time") &&
    (findall ts "testcase").all (fun tc => floatAttrOk (getAttr tc "time"))

/-- Whether an `Except` outcome is a failure. -/
def isFailure {ε α : Type} : Except ε α → Bool
  | .error _ => true
  | .ok _ => false

/-- A test case carrying all three marker children at once. -/
def tcAllMarkers : XElem :=
  ⟨"testcase", [], none,
    [⟨"skipped", [], some "because", []⟩, ⟨"error", [], some "E", []⟩,
      ⟨"failure", [], some "F", []⟩]⟩

/-- The parse of `tcAllMarkers`: the skip marker wins. -/
def cdAllMarkers : CaseData :=
  ⟨"Unknown", "", 0, "skipped", "", "because", "", ""⟩

/-- A document whose counters are inconsistent: zero tests but one error. -/
def rootNegative : XElem :=
  ⟨"root", [], none, [⟨"testsuite", [("tests", "0"), ("errors", "1")], none, []⟩]⟩

/-- The parse of `rootNegative`: the derived `passed` is `-1`. -/
def sdNegative : SuiteData :=
  ⟨"Unknown", 0, 0, 1, 0, 0, 0, [], -1⟩

/-- A suite element with a non-numeric `tests` attribute. -/
def tsBadTests : XElem := ⟨"testsuite", [("tests", "abc")], none, []⟩

/-- A document carrying `tsBadTests`. -/
def rootBadTests : XElem := ⟨"root", [], none, [tsBadTests]⟩

/-- A suite element with every numeric attribute absent, holding one
attribute-less test case. -/
def tsAllDefaults : XElem :=
  ⟨"testsuite", [], none, [⟨"testcase", [], none, []⟩]⟩

/-- A document carrying `tsAllDefaults`. -/
def rootAllDefaults : XElem := ⟨"root", [], none, [tsAllDefaults]⟩

/-- The parse of `rootAllDefaults`: every defaulted field is zero. -/
def sdAllDefaults : SuiteData :=
  ⟨"Unknown", 0, 0, 0, 0, 0, 0, [⟨"Unknown", "", 0, "passed", "", "", "", ""⟩], 0⟩

/-- A well-formed document whose root element is itself a `testsuite`
element that happens to contain a nested `testsuite` child. -/
def rootNestedSuite : XElem :=
  ⟨"testsuite", [], none, [⟨"testsuite", [], none, []⟩]⟩

/-- A well-formed document whose root element is itself the (childless)
`testsuite` element. -/
def rootIsSuite : XElem := ⟨"testsuite", [], none, []⟩

/-- A suite whose name carries markup, for exercising the escaping of the
document title and subtitle. -/
def tdInjected : SuiteData := ⟨"<b>x", 0, 0, 0, 0, 0, 0, [], 0⟩

/-- The exact beginning of the rendered document for `tdInjected`: the raw,
unescaped suite name sits inside the `<title>` element. -/
def titleOut : String :=
  "\n<!DOCTYPE html>\n<html lang=\"en\">\n<head>\n    <meta charset=\"UTF-8\">\n    <meta name=\"viewport\" content=\"width=device-width, initial-scale=1.0\">\n    <title>Test Report - <b>x</title>"

/-! ## Theorems -/

set_option maxRecDepth 4000

/-- C1 (evaluation at the failing input): for a suite named `<b>x` the
rendered document begins with a title block embedding the suite name raw —
the output's leading characters are exactly `titleOut`, whose `<title>`
element contains `<b>x` unescaped — although the escaper would have
produced `&lt;b&gt;x`. The suite name is embedded at source lines 587 and
595 without passing through `escape_html`, violating the escaping
contract. -/
theorem C1_suite_name_unescaped :
    (generate_html tdInjected "2025-01-01 00:00:00" "in.xml").data.take titleOut.data.length
        = titleOut.data ∧
    escape_html tdInjected.name = "&lt;b&gt;x" := by
  constructor
  · rfl
  · rfl

/-- C2: for every successfully parsed test case, the marker children decide
the status in the fixed order skipped, error, failure; the first present
marker sets the status and its message (inner text, or the fixed fallback
on empty/missing text) and leaves the other message fields empty; with no
marker the case is passed with all message fields empty. -/
theorem C2_status_precedence (tc : XElem) (cd : CaseData) (h : parseCase tc = .ok cd) :
    (∀ el, findChild tc "skipped" = some el →
      cd.status = "skipped" ∧ cd.skipped = textOrDefault el "Skipped" ∧
        cd.error = "" ∧ cd.failure = "") ∧
    (findChild tc "skipped" = none → ∀ el, findChild tc "error" = some el →
      cd.status = "error" ∧ cd.error = textOrDefault el "Error occurred" ∧
        cd.skipped = "" ∧ cd.failure = "") ∧
    (findChild tc "skipped" = none → findChild tc "error" = none →
      ∀ el, findChild tc "failure" = some el →
      cd.status = "failed" ∧ cd.failure = textOrDefault el "Test failed" ∧
        cd.skipped = "" ∧ cd.error = "") ∧
    (findChild tc "skipped" = none → findChild tc "error" = none →
      findChild tc "failure" = none →
      cd.status = "passed" ∧ cd.skipped = "" ∧ cd.error = "" ∧ cd.failure = "") := by
  unfold parseCase at h
  cases hfa : parseFloatAttr (getAttr tc "time") with
  | error e => rw [hfa] at h; cases h
  | ok time =>
    rw [hfa] at h
    simp only [Except.ok.injEq] at h
    subst h
    refine ⟨?_, ?_, ?_, ?_⟩
    · intro el hel
      rw [hel]
      simp
    · intro hs el hel
      rw [hs, hel]
      simp
    · intro hs he el hel
      rw [hs, he, hel]
      simp
    · intro hs he hf
      rw [hs, he, hf]
      simp

/-- Witness for C2: on a test case carrying all three markers at once, the
skip marker wins and sets the message from its text. -/
theorem C2_status_precedence_witness :
    parseCase tcAllMarkers = .ok cdAllMarkers ∧
    cdAllMarkers.status = "skipped" ∧ cdAllMarkers.skipped = "because" ∧
      cdAllMarkers.error = "" ∧ cdAllMarkers.failure = "" := by
  refine ⟨rfl, ?_⟩
  exact (C2_status_precedence tcAllMarkers cdAllMarkers rfl).1
    ⟨"skipped", [], some "because", []⟩ rfl

/-- C4: for every successfully parsed document the derived `passed` counter
equals `tests - errors - failures - skipped`, with no clamping (source
line 472). -/
theorem C4_passed_derivation (root : XElem) (sd : SuiteData)
    (h : parse_junit_xml root = .ok sd) :
    sd.passed = sd.tests - sd.errors - sd.failures - sd.skipped := by
  unfold parse_junit_xml at h
  cases h0 : findChild root "testsuite" with
  | none => simp only [h0] at h; cases h
  | some ts =>
    simp only [h0] at h
    cases h1 : parseIntAttr (getAttr ts "tests") with
    | error e => simp only [h1] at h; cases h
    | ok tests =>
      simp only [h1] at h
      cases h2 : parseIntAttr (getAttr ts "disabled") with
      | error e => simp only [h2] at h; cases h
      | ok disabled =>
        simp only [h2] at h
        cases h3 : parseIntAttr (getAttr ts "errors") with
        | error e => simp only [h3] at h; cases h
        | ok errors =>
          simp only [h3] at h
          cases h4 : parseIntAttr (getAttr ts "failures") with
          | error e => simp only [h4] at h; cases h
          | ok failures =>
            simp only [h4] at h
            cases h5 : parseIntAttr (getAttr ts "skipped") with
            | error e => simp only [h5] at h; cases h
            | ok skipped =>
              simp only [h5] at h
              cases h6 : parseFloatAttr (getAttr ts "time") with
              | error e => simp only [h6] at h; cases h
              | ok time =>
                simp only [h6] at h
                cases h7 : mapExcept parseCase (findall ts "testcase") with
                | error e => simp only [h7] at h; cases h
                | ok test_cases =>
                  simp only [h7] at h
                  cases h
                  rfl

/-- Witness for C4: a suite with `tests="0"` and `errors="1"` parses to a
negative `passed` value of `-1`, which still satisfies the derivation. -/
theorem C4_passed_derivation_witness :
    parse_junit_xml rootNegative = .ok sdNegative ∧
    sdNegative.passed = sdNegative.tests - sdNegative.errors - sdNegative.failures -
        sdNegative.skipped ∧
    sdNegative.passed = -1 :=
  ⟨rfl, C4_passed_derivation rootNegative sdNegative rfl, rfl⟩

/-- C8: a missing input path fails with the I/O-failure condition before
anything else is looked at, and every failing conversion performs no file
write at all — the single output write exists only on the success path. -/
theorem C8_io_failure_no_write :
    (∀ (fs : String → Option FileContent) (now input_file : String)
        (output_file? : Option String),
      fs input_file = none →
        convert fs now input_file output_file? = .error .ioFailure) ∧
    (∀ (fs : String → Option FileContent) (now input_file : String)
        (output_file? : Option String) (e : ConvError),
      convert fs now input_file output_file? = .error e →
        writesOf (convert fs now input_file output_file?) = []) := by
  constructor
  · intro fs now input_file output_file? h
    unfold convert
    rw [h]
  · intro fs now input_file output_file? e h
    rw [h]
    rfl

/-- Witness for C8: on an empty filesystem the conversion of `missing.xml`
is exactly the I/O failure, and it writes nothing. -/
theorem C8_io_failure_no_write_witness :
    convert (fun _ => none) "T" "missing.xml" none = .error .ioFailure ∧
    writesOf (convert (fun _ => none) "T" "missing.xml" none) = [] :=
  ⟨C8_io_failure_no_write.1 (fun _ => none) "T" "missing.xml" none rfl,
    C8_io_failure_no_write.2 (fun _ => none) "T" "missing.xml" none .ioFailure
      (C8_io_failure_no_write.1 (fun _ => none) "T" "missing.xml" none rfl)⟩

/-- C9: the output path derivation — no output argument takes the input's
directory, stem and the `_report.html` suffix; a bare output name is placed
in the input's directory; an output path with a directory component is used
as given; with the three concrete scenarios of the spec. -/
theorem C9_output_path_rules :
    resolveOutput "reports/x.xml" none = "reports/x_report.html" ∧
    resolveOutput "reports/x.xml" (some "out.html") = "reports/out.html" ∧
    resolveOutput "reports/x.xml" (some "/tmp/out.html") = "/tmp/out.html" ∧
    (∀ input_file, resolveOutput input_file none =
      pjoin (dirname input_file) ((splitext (basename input_file)).1 ++ "_report.html")) ∧
    (∀ input_file output_file, dirname output_file = "" →
      resolveOutput input_file (some output_file) =
        pjoin (dirname input_file) output_file) ∧
    (∀ input_file output_file, dirname output_file ≠ "" →
      resolveOutput input_file (some output_file) = output_file) := by
  refine ⟨rfl, rfl, rfl, fun _ => rfl, ?_, ?_⟩
  · intro input_file output_file h
    simp only [resolveOutput]
    rw [if_pos h]
  · intro input_file output_file h
    simp only [resolveOutput]
    rw [if_neg h]

/-- Witness for C9: the directory-component rules applied at the spec's
concrete scenarios. -/
theorem C9_output_path_rules_witness :
    resolveOutput "reports/x.xml" (some "out.html") = pjoin (dirname "reports/x.xml") "out.html" ∧
    resolveOutput "reports/x.xml" (some "/tmp/out.html") = "/tmp/out.html" :=
  ⟨C9_output_path_rules.2.2.2.2.1 "reports/x.xml" "out.html" rfl,
    C9_output_path_rules.2.2.2.2.2 "reports/x.xml" "/tmp/out.html" (by decide)⟩

/-- C10 counterexample: a well-formed document whose root element is itself
the `testsuite` element does not always fail — when that root contains a
nested `testsuite` child, `root.find('testsuite')` finds the child and the
parse succeeds. -/
theorem C10_counterexample :
    rootNestedSuite.tag = "testsuite" ∧
    parse_junit_xml rootNestedSuite = .ok ⟨"Unknown", 0, 0, 0, 0, 0, 0, [], 0⟩ :=
  ⟨rfl, rfl⟩

/-- C10 (amended): parsing fails with the no-suite condition exactly when
the root element has no `testsuite` direct child — in particular for a
root that is itself a `testsuite` element with no nested `testsuite`. -/
theorem C10_no_suite_child (root : XElem) (h : findChild root "testsuite" = none) :
    parse_junit_xml root = .error .noSuite := by
  unfold parse_junit_xml
  rw [h]

/-- Witness for C10: the childless `testsuite` root fails with the no-suite
condition. -/
theorem C10_no_suite_child_witness :
    rootIsSuite.tag = "testsuite" ∧
    parse_junit_xml rootIsSuite = .error .noSuite :=
  ⟨rfl, C10_no_suite_child rootIsSuite rfl⟩

/-- C7: the three unit scales of the time formatter, with their exact
boundaries, and the spec's concrete boundary values. -/
theorem C7_format_time_boundaries :
    (∀ q : ℚ, q < 1 → format_time q = formatFixed (q * 1000) 1 ++ " ms") ∧
    (∀ q : ℚ, 1 ≤ q → q < 60 → format_time q = formatFixed q 2 ++ " s") ∧
    (∀ q : ℚ, 60 ≤ q → format_time q =
      toString (Rat.floor (q / 60)) ++ "m " ++
        formatFixed (q - 60 * (Rat.floor (q / 60) : ℚ)) 1 ++ "s") ∧
    format_time 0.5 = "500.0 ms" ∧ format_time 0.999 = "999.0 ms" ∧
    format_time 1 = "1.00 s" ∧ format_time 59.99 = "59.99 s" ∧
    format_time 60 = "1m 0.0s" ∧ format_time 125.4 = "2m 5.4s" := by
  refine ⟨?_, ?_, ?_, by with_unfolding_all rfl, by with_unfolding_all rfl,
    by with_unfolding_all rfl, by with_unfolding_all rfl, by with_unfolding_all rfl,
    by with_unfolding_all rfl⟩
  · intro q h
    unfold format_time
    rw [if_pos h]
  · intro q h1 h2
    unfold format_time
    rw [if_neg (not_lt.mpr h1), if_pos h2]
  · intro q h
    unfold format_time
    rw [if_neg (not_lt.mpr (le_trans (by norm_num) h)), if_neg (not_lt.mpr h)]

/-- Witness for C7: the sub-second branch applied at one half. -/
theorem C7_format_time_boundaries_witness :
    format_time 0.5 = formatFixed (0.5 * 1000) 1 ++ " ms" ∧
    format_time 125.4 = toString (Rat.floor ((125.4 : ℚ) / 60)) ++ "m " ++
      formatFixed ((125.4 : ℚ) - 60 * (Rat.floor ((125.4 : ℚ) / 60) : ℚ)) 1 ++ "s" :=
  ⟨C7_format_time_boundaries.1 0.5 (by norm_num),
    C7_format_time_boundaries.2.2.1 125.4 (by norm_num)⟩

/-- Character replacement distributes over list concatenation. -/
theorem replaceCh_append (c : Char) (r a b : List Char) :
    replaceCh c r (a ++ b) = replaceCh c r a ++ replaceCh c r b := by
  induction a with
  | nil => rfl
  | cons x xs ih => simp [replaceCh, ih, List.append_assoc]

/-- On a single character, the five-step replacement chain of `escape_html`
computes the per-character escape. -/
theorem chain_single (x : Char) :
    replaceCh '\'' "&#x27;".data (replaceCh '"' "&quot;".data (replaceCh '>' "&gt;".data
      (replaceCh '<' "&lt;".data (replaceCh '&' "&amp;".data [x])))) = escChar x := by
  by_cases h1 : x = '&'
  · subst h1; rfl
  by_cases h2 : x = '<'
  · subst h2; rfl
  by_cases h3 : x = '>'
  · subst h3; rfl
  by_cases h4 : x = '"'
  · subst h4; rfl
  by_cases h5 : x = '\''
  · subst h5; rfl
  simp [replaceCh, escChar, h1, h2, h3, h4, h5]

/-- The sequential replacement chain is the single-pass character map:
because the ampersand is replaced first and no entity re-introduces a
character replaced later, each source character is escaped exactly once. -/
theorem chain_eq_join : ∀ l : List Char,
    replaceCh '\'' "&#x27;".data (replaceCh '"' "&quot;".data (replaceCh '>' "&gt;".data
      (replaceCh '<' "&lt;".data (replaceCh '&' "&amp;".data l)))) = (l.map escChar).flatten
  | [] => rfl
  | x :: xs => by
    rw [show (x :: xs) = [x] ++ xs from rfl, replaceCh_append, replaceCh_append,
      replaceCh_append, replaceCh_append, replaceCh_append]
    rw [chain_eq_join xs, chain_single x]
    simp

/-- The function `escape_html` is the single-pass per-character escape map. -/
theorem escape_html_eq_join (s : String) :
    escape_html s = String.mk ((s.data.map escChar).flatten) := by
  by_cases h : s = ""
  · subst h; rfl
  · unfold escape_html
    rw [if_neg h, chain_eq_join]

/-- No per-character escape emits one of the four markup-significant
characters. -/
theorem escChar_all_safe (x : Char) :
    (escChar x).all (fun c => !(c == '<' || c == '>' || c == '"' || c == '\'')) = true := by
  by_cases h1 : x = '&'
  · subst h1; decide
  by_cases h2 : x = '<'
  · subst h2; decide
  by_cases h3 : x = '>'
  · subst h3; decide
  by_cases h4 : x = '"'
  · subst h4; decide
  by_cases h5 : x = '\''
  · subst h5; decide
  simp [escChar, h1, h2, h3, h4, h5]

/-- The escaped form of any character list contains none of the four
markup-significant characters. -/
theorem join_map_all_safe : ∀ l : List Char,
    ((l.map escChar).flatten).all (fun c => !(c == '<' || c == '>' || c == '"' || c == '\'')) = true
  | [] => rfl
  | x :: xs => by
    simp only [List.map_cons, List.flatten_cons, List.all_append]
    rw [escChar_all_safe x, join_map_all_safe xs]
    rfl

/-- Prepending one escaped character preserves entity-safety of the
ampersands. -/
theorem ampSafeB_escChar (x : Char) (t : List Char) (h : ampSafeB t = true) :
    ampSafeB (escChar x ++ t) = true := by
  by_cases h1 : x = '&'
  · subst h1
    show ampSafeB ('&' :: 'a' :: 'm' :: 'p' :: ';' :: t) = true
    simp only [ampSafeB, List.isPrefixOf]
    exact h
  by_cases h2 : x = '<'
  · subst h2
    show ampSafeB ('&' :: 'l' :: 't' :: ';' :: t) = true
    simp only [ampSafeB, List.isPrefixOf]
    exact h
  by_cases h3 : x = '>'
  · subst h3
    show ampSafeB ('&' :: 'g' :: 't' :: ';' :: t) = true
    simp only [ampSafeB, List.isPrefixOf]
    exact h
  by_cases h4 : x = '"'
  · subst h4
    show ampSafeB ('&' :: 'q' :: 'u' :: 'o' :: 't' :: ';' :: t) = true
    simp only [ampSafeB, List.isPrefixOf]
    exact h
  by_cases h5 : x = '\''
  · subst h5
    show ampSafeB ('&' :: '#' :: 'x' :: '2' :: '7' :: ';' :: t) = true
    simp only [ampSafeB, List.isPrefixOf]
    exact h
  have hx : escChar x = [x] := by simp [escChar, h1, h2, h3, h4, h5]
  rw [hx]
  simp only [List.cons_append, List.nil_append, ampSafeB]
  rw [if_neg h1]
  simp [h]

/-- Every ampersand of an escaped character list starts an entity. -/
theorem join_map_ampSafe : ∀ l : List Char, ampSafeB ((l.map escChar).flatten) = true
  | [] => rfl
  | x :: xs => by
    simp only [List.map_cons, List.flatten_cons]
    exact ampSafeB_escChar x _ (join_map_ampSafe xs)

/-- C5: the escaper is the single-pass per-character map (ampersand first,
so no double escaping), its output contains no `<`, `>`, `"`, `'` at all
and no ampersand that does not start one of the five entities, and empty
input yields the empty string. -/
theorem C5_escaper_safe (s : String) :
    escape_html s = String.mk ((s.data.map escChar).flatten) ∧
    (escape_html s).data.all (fun c => !(c == '<' || c == '>' || c == '"' || c == '\'')) = true ∧
    ampSafeB (escape_html s).data = true ∧
    escape_html "" = "" := by
  refine ⟨escape_html_eq_join s, ?_, ?_, rfl⟩
  · rw [escape_html_eq_join s]
    exact join_map_all_safe s.data
  · rw [escape_html_eq_join s]
    exact join_map_ampSafe s.data

/-- The length of a string is the length of its character list. -/
theorem string_length_data (s : String) : s.length = s.data.length := rfl

/-- A string is empty exactly when its character list is. -/
theorem string_eq_empty_iff (s : String) : s = "" ↔ s.data = [] := by
  cases s with
  | mk data =>
    constructor
    · intro h
      have hd : (String.mk data).data = ("" : String).data := by rw [h]
      exact hd
    · intro h
      show String.mk data = ""
      rw [show data = ([] : List Char) from h]

/-- C6: the name normalizer is total — the output is never empty and never
longer than 60 characters; empty input yields the `"Unknown Test"`
placeholder, a non-empty input whose rewrites reduce it to nothing yields
`"Test Case"`, and a cleaned result longer than 60 characters is truncated
to its first 57 characters plus `"..."`. -/
theorem C6_clean_name_total (s : String) :
    clean_test_name s ≠ "" ∧ (clean_test_name s).length ≤ 60 ∧
    (s = "" → clean_test_name s = "Unknown Test") ∧
    (s ≠ "" → cleanSteps s = "" → clean_test_name s = "Test Case") ∧
    (s ≠ "" → 60 < (cleanSteps s).length →
      clean_test_name s = String.mk ((cleanSteps s).data.take 57) ++ "...") := by
  by_cases hs : s = ""
  · subst hs
    exact ⟨by decide, by decide, fun _ => rfl, fun h _ => absurd rfl h, fun h _ => absurd rfl h⟩
  · by_cases hlen : (cleanSteps s).length > 60
    · have hd : 60 < (cleanSteps s).data.length := by
        rw [← string_length_data]
        exact hlen
      have h57 : ((cleanSteps s).data.take 57).length = 57 := by
        rw [List.length_take]
        omega
      have hlenTr : (String.mk ((cleanSteps s).data.take 57) ++ "...").length = 60 := by
        show ((cleanSteps s).data.take 57 ++ "...".data).length = 60
        rw [List.length_append, h57]
        rfl
      have hne : String.mk ((cleanSteps s).data.take 57) ++ "..." ≠ "" := by
        intro hcontra
        rw [hcontra] at hlenTr
        exact absurd hlenTr (by decide)
      have htr : clean_test_name s = String.mk ((cleanSteps s).data.take 57) ++ "..." := by
        unfold clean_test_name
        rw [if_neg hs]
        simp only [if_pos hlen]
        rw [if_neg hne]
      refine ⟨?_, ?_, fun h => absurd h hs, ?_, fun _ _ => htr⟩
      · rw [htr]
        exact hne
      · rw [htr, hlenTr]
      · intro _ hempty
        rw [hempty] at hd
        exact absurd hd (by decide)
    · have hcl : clean_test_name s =
          (if cleanSteps s = "" then "Test Case" else cleanSteps s) := by
        unfold clean_test_name
        rw [if_neg hs]
        simp only [if_neg hlen]
      by_cases hemp : cleanSteps s = ""
      · rw [if_pos hemp] at hcl
        refine ⟨by rw [hcl]; decide, by rw [hcl]; decide, fun h => absurd h hs,
          fun _ _ => hcl, ?_⟩
        intro _ hlong
        rw [hemp] at hlong
        exact absurd hlong (by decide)
      · rw [if_neg hemp] at hcl
        refine ⟨by rw [hcl]; exact hemp, by rw [hcl]; omega, fun h => absurd h hs,
          fun _ h => absurd h hemp, fun _ hlong => absurd hlong (by omega)⟩

/-- Witness for C6: the comma-only name is rewritten to nothing and falls
back to `"Test Case"`; the empty name yields `"Unknown Test"`. -/
theorem C6_clean_name_total_witness :
    clean_test_name "," = "Test Case" ∧ clean_test_name "" = "Unknown Test" :=
  ⟨(C6_clean_name_total ",").2.2.2.1 (by decide) (by decide),
    (C6_clean_name_total "").2.2.1 rfl⟩

/-- A well-behaved int attribute parses, and to zero when absent. -/
theorem parseIntAttr_ok_of (o : Option String) (h : intAttrOk o = true) :
    ∃ n, parseIntAttr o = .ok n ∧ (o = none → n = 0) := by
  cases o with
  | none => exact ⟨0, rfl, fun _ => rfl⟩
  | some s =>
    simp only [intAttrOk] at h
    cases hp : pyInt? s with
    | none => rw [hp] at h; cases h
    | some n =>
      refine ⟨n, ?_, by intro hc; cases hc⟩
      simp only [parseIntAttr, hp]

/-- A malformed int attribute makes the parse fail. -/
theorem parseIntAttr_err_of (o : Option String) (h : intAttrOk o = false) :
    ∃ s, o = some s ∧ parseIntAttr o = .error (.badNumber s) := by
  cases o with
  | none => cases h
  | some s =>
    simp only [intAttrOk] at h
    cases hp : pyInt? s with
    | none =>
      refine ⟨s, rfl, ?_⟩
      simp only [parseIntAttr, hp]
    | some n => rw [hp] at h; cases h

/-- A well-behaved float attribute parses, and to zero when absent. -/
theorem parseFloatAttr_ok_of (o : Option String) (h : floatAttrOk o = true) :
    ∃ q, parseFloatAttr o = .ok q ∧ (o = none → q = 0) := by
  cases o with
  | none => exact ⟨0, rfl, fun _ => rfl⟩
  | some s =>
    simp only [floatAttrOk] at h
    cases hp : pyFloat? s with
    | none => rw [hp] at h; cases h
    | some q =>
      refine ⟨q, ?_, by intro hc; cases hc⟩
      simp only [parseFloatAttr, hp]

/-- A malformed float attribute makes the parse fail. -/
theorem parseFloatAttr_err_of (o : Option String) (h : floatAttrOk o = false) :
    ∃ s, o = some s ∧ parseFloatAttr o = .error (.badNumber s) := by
  cases o with
  | none => cases h
  | some s =>
    simp only [floatAttrOk] at h
    cases hp : pyFloat? s with
    | none =>
      refine ⟨s, rfl, ?_⟩
      simp only [parseFloatAttr, hp]
    | some q => rw [hp] at h; cases h

/-- A test case with a well-behaved time attribute parses, and its time
defaults to zero when the attribute is absent. -/
theorem parseCase_ok_of (tc : XElem) (h : floatAttrOk (getAttr tc "time") = true) :
    ∃ cd, parseCase tc = .ok cd ∧ (getAttr tc "time" = none → cd.time = 0) := by
  obtain ⟨q, hq, h0⟩ := parseFloatAttr_ok_of _ h
  unfold parseCase
  rw [hq]
  refine ⟨_, rfl, fun hnone => ?_⟩
  have hq0 : q = 0 := h0 hnone
  subst hq0
  cases findChild tc "skipped" with
  | some el => rfl
  | none =>
    cases findChild tc "error" with
    | some el => rfl
    | none =>
      cases findChild tc "failure" with
      | some el => rfl
      | none => rfl

/-- A test case with a malformed time attribute fails to parse. -/
theorem parseCase_err_of (tc : XElem) (h : floatAttrOk (getAttr tc "time") = false) :
    ∃ s, parseCase tc = .error (.badNumber s) := by
  obtain ⟨s, hso, hs⟩ := parseFloatAttr_err_of _ h
  refine ⟨s, ?_⟩
  unfold parseCase
  rw [hs]

/-- When every case time is well-behaved the case list parses, and each
case whose time attribute is absent gets time zero. -/
theorem mapExcept_parseCase_ok (l : List XElem)
    (h : l.all (fun tc => floatAttrOk (getAttr tc "time")) = true) :
    ∃ cds, mapExcept parseCase l = .ok cds ∧
      ∀ (i : Nat) (tc : XElem), l[i]? = some tc → getAttr tc "time" = none →
        ∃ cd, cds[i]? = some cd ∧ cd.time = 0 := by
  induction l with
  | nil =>
    refine ⟨[], rfl, ?_⟩
    intro i tc hi
    simp at hi
  | cons a t ih =>
    rw [List.all_cons, Bool.and_eq_true] at h
    obtain ⟨cd, hcd, hcd0⟩ := parseCase_ok_of a h.1
    obtain ⟨cds, hcds, hrest⟩ := ih h.2
    refine ⟨cd :: cds, ?_, ?_⟩
    · unfold mapExcept
      rw [hcd, hcds]
    · intro i tc hi hnone
      cases i with
      | zero =>
        simp only [List.getElem?_cons_zero, Option.some.injEq] at hi
        subst hi
        exact ⟨cd, by simp, hcd0 hnone⟩
      | succ j =>
        simp only [List.getElem?_cons_succ] at hi
        obtain ⟨cd', hcd', h0'⟩ := hrest j tc hi hnone
        exact ⟨cd', by simpa using hcd', h0'⟩

/-- When some case time is malformed the case list fails to parse. -/
theorem mapExcept_parseCase_err (l : List XElem)
    (h : l.all (fun tc => floatAttrOk (getAttr tc "time")) = false) :
    ∃ e, mapExcept parseCase l = .error e := by
  induction l with
  | nil => cases h
  | cons a t ih =>
    rw [List.all_cons, Bool.and_eq_false_iff] at h
    cases hha : floatAttrOk (getAttr a "time") with
    | false =>
      obtain ⟨s, hs⟩ := parseCase_err_of a hha
      refine ⟨.badNumber s, ?_⟩
      unfold mapExcept
      rw [hs]
    | true =>
      have hht : t.all (fun tc => floatAttrOk (getAttr tc "time")) = false := by
        cases h with
        | inl h' => rw [hha] at h'; cases h'
        | inr h' => exact h'
      obtain ⟨cd, hcd, _⟩ := parseCase_ok_of a hha
      obtain ⟨e, he⟩ := ih hht
      refine ⟨e, ?_⟩
      unfold mapExcept
      rw [hcd, he]

/-- C3: for a document with a `testsuite` child, a numeric attribute
(suite counter, suite time, or case time) that is present but unparseable
makes the whole parse fail, while absent numeric attributes default to zero
and — when all numeric attributes are well-behaved — the parse succeeds. -/
theorem C3_malformed_fails_absent_defaults (root ts : XElem)
    (h : findChild root "testsuite" = some ts) :
    (suiteNumericOk ts = false → ∃ e, parse_junit_xml root = .error e) ∧
    (suiteNumericOk ts = true →
      ∃ sd, parse_junit_xml root = .ok sd ∧
        (getAttr ts "tests" = none → sd.tests = 0) ∧
        (getAttr ts "disabled" = none → sd.disabled = 0) ∧
        (getAttr ts "errors" = none → sd.errors = 0) ∧
        (getAttr ts "failures" = none → sd.failures = 0) ∧
        (getAttr ts "skipped" = none → sd.skipped = 0) ∧
        (getAttr ts "time" = none → sd.time = 0) ∧
        (∀ (i : Nat) (tc : XElem), (findall ts "testcase")[i]? = some tc →
          getAttr tc "time" = none →
          ∃ cd, sd.test_cases[i]? = some cd ∧ cd.time = 0)) := by
  constructor
  · intro hfalse
    cases c1 : intAttrOk (getAttr ts "tests") with
    | false =>
      obtain ⟨s, _, hs⟩ := parseIntAttr_err_of _ c1
      exact ⟨.badNumber s, by unfold parse_junit_xml; simp only [h, hs]⟩
    | true =>
      obtain ⟨n1, h1, _⟩ := parseIntAttr_ok_of _ c1
      cases c2 : intAttrOk (getAttr ts "disabled") with
      | false =>
        obtain ⟨s, _, hs⟩ := parseIntAttr_err_of _ c2
        exact ⟨.badNumber s, by unfold parse_junit_xml; simp only [h, h1, hs]⟩
      | true =>
        obtain ⟨n2, h2, _⟩ := parseIntAttr_ok_of _ c2
        cases c3 : intAttrOk (getAttr ts "errors") with
        | false =>
          obtain ⟨s, _, hs⟩ := parseIntAttr_err_of _ c3
          exact ⟨.badNumber s, by unfold parse_junit_xml; simp only [h, h1, h2, hs]⟩
        | true =>
          obtain ⟨n3, h3, _⟩ := parseIntAttr_ok_of _ c3
          cases c4 : intAttrOk (getAttr ts "failures") with
          | false =>
            obtain ⟨s, _, hs⟩ := parseIntAttr_err_of _ c4
            exact ⟨.badNumber s, by unfold parse_junit_xml; simp only [h, h1, h2, h3, hs]⟩
          | true =>
            obtain ⟨n4, h4, _⟩ := parseIntAttr_ok_of _ c4
            cases c5 : intAttrOk (getAttr ts "skipped") with
            | false =>
              obtain ⟨s, _, hs⟩ := parseIntAttr_err_of _ c5
              exact ⟨.badNumber s, by unfold parse_junit_xml; simp only [h, h1, h2, h3, h4, hs]⟩
            | true =>
              obtain ⟨n5, h5, _⟩ := parseIntAttr_ok_of _ c5
              cases c6 : floatAttrOk (getAttr ts "time") with
              | false =>
                obtain ⟨s, _, hs⟩ := parseFloatAttr_err_of _ c6
                exact ⟨.badNumber s, by
                  unfold parse_junit_xml; simp only [h, h1, h2, h3, h4, h5, hs]⟩
              | true =>
                obtain ⟨q6, h6, _⟩ := parseFloatAttr_ok_of _ c6
                cases c7 : (findall ts "testcase").all
                    (fun tc => floatAttrOk (getAttr tc "time")) with
                | false =>
                  obtain ⟨e, he⟩ := mapExcept_parseCase_err _ c7
                  exact ⟨e, by
                    unfold parse_junit_xml; simp only [h, h1, h2, h3, h4, h5, h6, he]⟩
                | true =>
                  rw [suiteNumericOk, c1, c2, c3, c4, c5, c6, c7] at hfalse
                  cases hfalse
  · intro htrue
    unfold suiteNumericOk at htrue
    rw [Bool.and_eq_true, Bool.and_eq_true, Bool.and_eq_true, Bool.and_eq_true,
      Bool.and_eq_true, Bool.and_eq_true] at htrue
    obtain ⟨⟨⟨⟨⟨⟨c1, c2⟩, c3⟩, c4⟩, c5⟩, c6⟩, c7⟩ := htrue
    obtain ⟨n1, h1, d1⟩ := parseIntAttr_ok_of _ c1
    obtain ⟨n2, h2, d2⟩ := parseIntAttr_ok_of _ c2
    obtain ⟨n3, h3, d3⟩ := parseIntAttr_ok_of _ c3
    obtain ⟨n4, h4, d4⟩ := parseIntAttr_ok_of _ c4
    obtain ⟨n5, h5, d5⟩ := parseIntAttr_ok_of _ c5
    obtain ⟨q6, h6, d6⟩ := parseFloatAttr_ok_of _ c6
    obtain ⟨cds, hcds, hrest⟩ := mapExcept_parseCase_ok _ c7
    refine ⟨_, by unfold parse_junit_xml; simp only [h, h1, h2, h3, h4, h5, h6, hcds]; rfl, ?_⟩
    exact ⟨d1, d2, d3, d4, d5, d6, hrest⟩

/-- Witness for C3: a suite with `tests="abc"` fails to parse, while a
suite with every numeric attribute absent parses with all-zero defaults. -/
theorem C3_malformed_fails_absent_defaults_witness :
    isFailure (parse_junit_xml rootBadTests) = true ∧
    parse_junit_xml rootAllDefaults = .ok sdAllDefaults := by
  constructor
  · obtain ⟨e, he⟩ :=
      (C3_malformed_fails_absent_defaults rootBadTests tsBadTests rfl).1 (by rfl)
    rw [he]
    rfl
  · rfl
